import Mathlib

/-!
Verification development for the wealth-guide-voice chatbot core
(`src/lib/financialCalculations.ts` and the intent router
`getBeginnerFriendlyResponse` of `src/components/chat/FinancialChatbot.tsx`).

Modelling conventions:
* JavaScript numbers are modelled as `ℚ` on the computable paths
  (budget / retirement / emergency-fund calculators and the currency
  formatter, where the program only ever manipulates decimal constants and
  parsed integers) and as `ℝ` where the code uses `Math.log` / `Math.pow`
  with real exponents (`calculateDebtPayoff`, `calculateRetirementPlan`
  with a real horizon).  `Infinity` in the debt calculator is modelled by
  `(⊤ : EReal)`.
* The conversation context only ever receives integers parsed from the
  user's text (`parseInt` of a digit string), so its numeric fields are
  modelled as `Option ℕ`; JavaScript truthiness (`undefined`, `0` and
  `NaN` are falsy) is modelled explicitly.
* `String.prototype.includes`, `toLowerCase` (messages are ASCII) and the
  two regular expressions `/\$?[\d,]+/` and
  `/(\d+)\s*years?\s*old|age\s*(\d+)|i'm\s*(\d+)/i` are modelled by
  executable scanners with JavaScript's leftmost-match semantics.
* React's `setChatContext(prev => ...)` queues functional updates: reads of
  `chatContext` inside one call of `getBeginnerFriendlyResponse` see the
  state from before the call (a stale closure), while the queued updates
  compose in order.  The model therefore dispatches on the *stale* context
  and threads the *updated* context through as the call's result.
-/

namespace WealthGuide

set_option maxRecDepth 16384

/-! ## ASCII string primitives (JavaScript `toLowerCase` / `includes`) -/

/-- ASCII lower-casing of one character, as `toLowerCase` acts on the
ASCII range (the router's keyword tests are all ASCII). -/
def asciiLower (c : Char) : Char :=
  if c.isUpper then Char.ofNat (c.toNat + 32) else c

/-- `String.prototype.toLowerCase`, restricted to ASCII input. -/
def lowerStr (s : String) : String := ⟨s.data.map asciiLower⟩

/-- Does `pat` occur as a prefix of `l`? -/
def listIsPref : List Char → List Char → Bool
  | [], _ => true
  | _ :: _, [] => false
  | a :: as, b :: bs => a == b && listIsPref as bs

/-- Does `pat` occur as a contiguous subsequence of the list? -/
def containsSeq (pat : List Char) : List Char → Bool
  | [] => pat.isEmpty
  | c :: t => listIsPref pat (c :: t) || containsSeq pat t

/-- `s.includes(pat)` of JavaScript. -/
def strIncludes (s pat : String) : Bool := containsSeq pat.data s.data

/-- Value of a digit string, as `parseInt` reads a string of decimal
digits. -/
def digitsToNat (ds : List Char) : ℕ :=
  ds.foldl (fun a c => 10 * a + (c.toNat - 48)) 0

/-! ## `extractNumberFromText` (financialCalculations.ts, lines 130-136)

`text.match(/\$?[\d,]+/)` scans left to right for the first position where
an optional `$` is followed by a maximal nonempty run of digits and commas;
`parseInt(match[0].replace(/[\$,]/g, ''))` then strips `$` and commas.  A
match consisting of commas only strips to the empty string and `parseInt`
returns `NaN`; no match returns `null`.  The three outcomes are an
inductive. -/

/-- A character matched by the class `[\d,]`. -/
def isTok (c : Char) : Bool := c.isDigit || c == ','

/-- Result of `extractNumberFromText`: a JavaScript `number | null` whose
reachable values are `null`, `NaN`, or a parsed natural number. -/
inductive ExtractResult
  | null
  | nan
  | num (n : ℕ)
deriving DecidableEq

/-- Does the list start with a `[\d,]` character? -/
def tokStart : List Char → Bool
  | [] => false
  | r :: _ => isTok r

/-- First (leftmost, then maximal) match of `/\$?[\d,]+/` in the text:
a match starts wherever a `[\d,]` character stands, or at a `$` directly
followed by one (`$` itself is not in `[\d,]`, so the two cases are
disjoint and their order is immaterial). -/
def findTokenMatch : List Char → Option (List Char)
  | [] => none
  | c :: rest =>
    if isTok c then some (c :: rest.takeWhile isTok)
    else if c == '$' && tokStart rest then some (c :: rest.takeWhile isTok)
    else findTokenMatch rest

/-- `extractNumberFromText` (lines 130-136). -/
def extractNumberFromText (s : String) : ExtractResult :=
  match findTokenMatch s.data with
  | none => ExtractResult.null
  | some tok =>
    let ds := tok.filter Char.isDigit
    if ds.isEmpty then ExtractResult.nan else ExtractResult.num (digitsToNat ds)

/-! ## The age pattern (FinancialChatbot.tsx, line 108)

`userMessage.match(/(\d+)\s*years?\s*old|age\s*(\d+)|i'm\s*(\d+)/i)`:
at each position, the three alternatives are tried in order and the first
success wins; scanning is leftmost.  `parseInt(m[1] || m[2] || m[3])`
yields the digits of whichever group matched. -/

/-- Skip `\s*`. -/
def skipWs (cs : List Char) : List Char := cs.dropWhile Char.isWhitespace

/-- Case-insensitive literal match: the rest of the input on success. -/
def matchCI : List Char → List Char → Option (List Char)
  | [], rest => some rest
  | _ :: _, [] => none
  | p :: ps, c :: cs => if asciiLower c == asciiLower p then matchCI ps cs else none

/-- `\s*old` from here on. -/
def oldAfter (r : List Char) : Bool := (matchCI ['o', 'l', 'd'] (skipWs r)).isSome

/-- `years?\s*old` from here on (the optional `s` backtracks). -/
def yearsTail (r : List Char) : Bool :=
  match matchCI ['y', 'e', 'a', 'r'] r with
  | none => false
  | some r3 =>
    (match r3 with
     | c :: r4 => (asciiLower c == 's' && oldAfter r4) || oldAfter (c :: r4)
     | [] => oldAfter [])

/-- Alternative 1, `(\d+)\s*years?\s*old`, anchored here: the digits. -/
def ageAlt1 (cs : List Char) : Option (List Char) :=
  let ds := cs.takeWhile Char.isDigit
  if ds.isEmpty then none
  else if yearsTail (skipWs (cs.dropWhile Char.isDigit)) then some ds else none

/-- Alternative 2, `age\s*(\d+)`, anchored here: the digits. -/
def ageAlt2 (cs : List Char) : Option (List Char) :=
  match matchCI ['a', 'g', 'e'] cs with
  | none => none
  | some r =>
    let ds := (skipWs r).takeWhile Char.isDigit
    if ds.isEmpty then none else some ds

/-- Alternative 3, `i'm\s*(\d+)`, anchored here: the digits. -/
def ageAlt3 (cs : List Char) : Option (List Char) :=
  match matchCI ['i', Char.ofNat 39, 'm'] cs with
  | none => none
  | some r =>
    let ds := (skipWs r).takeWhile Char.isDigit
    if ds.isEmpty then none else some ds

/-- Leftmost match of the age pattern, alternatives in order. -/
def ageScan : List Char → Option ℕ
  | [] => none
  | c :: rest =>
    match ageAlt1 (c :: rest) with
    | some ds => some (digitsToNat ds)
    | none =>
      match ageAlt2 (c :: rest) with
      | some ds => some (digitsToNat ds)
      | none =>
        match ageAlt3 (c :: rest) with
        | some ds => some (digitsToNat ds)
        | none => ageScan rest

/-- The age extracted by line 108-110, when the pattern matches. -/
def ageFromText (s : String) : Option ℕ := ageScan s.data

/-! ## `formatCurrency` (financialCalculations.ts, lines 121-128)

`Intl.NumberFormat('en-US', { style: 'currency', currency: 'USD',
minimumFractionDigits: 0, maximumFractionDigits: 0 })`: a `$` sign,
half-away-from-zero rounding to an integer, thousands separated by
commas, a leading `-` for negative amounts. -/

/-- Chunks of three for digit grouping (input is the reversed digits). -/
def chunk3 : List Char → List (List Char)
  | [] => []
  | [a] => [[a]]
  | [a, b] => [[a, b]]
  | a :: b :: c :: rest => [a, b, c] :: chunk3 rest

/-- Decimal digits of `n` with thousands commas. -/
def withCommas (n : ℕ) : String :=
  ⟨((((chunk3 (Nat.toDigits 10 n).reverse).intersperse [',']).flatten).reverse)⟩

/-- `formatCurrency`, on the rationals (finite numbers). -/
def formatCurrency (q : ℚ) : String :=
  if q < 0 then "-$" ++ withCommas (⌊-q + 1/2⌋.toNat)
  else "$" ++ withCommas (⌊q + 1/2⌋.toNat)

/-! ## The computable calculators, over `ℚ`
(financialCalculations.ts, lines 36-99) -/

structure BudgetPlan where
  totalIncome : ℚ
  needs : ℚ
  wants : ℚ
  savings : ℚ
  needsPercentage : ℚ
  wantsPercentage : ℚ
  savingsPercentage : ℚ
deriving DecidableEq

/-- `calculateBudget` (lines 36-50). -/
def calculateBudget (income : ℚ) : BudgetPlan :=
  { totalIncome := income
    needs := income * 0.5
    wants := income * 0.3
    savings := income * 0.2
    needsPercentage := 50
    wantsPercentage := 30
    savingsPercentage := 20 }

structure RetirementPlan where
  yearsToRetirement : ℤ
  monthlyContribution : ℚ
  projectedRetirementFund : ℚ
  monthlyIncomeAtRetirement : ℚ
deriving DecidableEq

/-- `calculateRetirementPlan` (lines 52-80) at integer ages, which is how
the router calls it (`contributionRate` defaults to `0.15` at the only
call site and is passed explicitly here). -/
def calculateRetirementPlan (currentAge retirementAge : ℤ)
    (currentSavings monthlyIncome contributionRate : ℚ) : RetirementPlan :=
  let yearsToRetirement := retirementAge - currentAge
  let monthlyContribution := monthlyIncome * contributionRate
  let annualReturn : ℚ := 0.07
  let monthlyReturn := annualReturn / 12
  let futureValueCurrent := currentSavings * (1 + annualReturn) ^ yearsToRetirement
  let futureValueContributions := monthlyContribution *
    (((1 + monthlyReturn) ^ (yearsToRetirement * 12) - 1) / monthlyReturn)
  let projectedRetirementFund := futureValueCurrent + futureValueContributions
  { yearsToRetirement := yearsToRetirement
    monthlyContribution := monthlyContribution
    projectedRetirementFund := projectedRetirementFund
    monthlyIncomeAtRetirement := projectedRetirementFund * 0.04 / 12 }

structure EmergencyFundPlan where
  targetAmount : ℚ
  currentAmount : ℚ
  monthsToGoal : ℤ
  monthlySavingsNeeded : ℚ
deriving DecidableEq

/-- `calculateEmergencyFund` (lines 82-99); `targetMonths` defaults to `6`
at the only call site and is passed explicitly here.  (When
`monthlyIncome = 0` the source divides by zero and produces `Infinity`;
in `ℚ` the division is `0` — that corner is reached by no claim.) -/
def calculateEmergencyFund (monthlyExpenses currentSavings monthlyIncome targetMonths : ℚ) :
    EmergencyFundPlan :=
  let targetAmount := monthlyExpenses * targetMonths
  let remainingAmount := max 0 (targetAmount - currentSavings)
  let availableForSavings := monthlyIncome * 0.1
  let monthsToGoal : ℤ := if 0 < remainingAmount then ⌈remainingAmount / availableForSavings⌉ else 0
  { targetAmount := targetAmount
    currentAmount := currentSavings
    monthsToGoal := monthsToGoal
    monthlySavingsNeeded := availableForSavings }

/-! ## `calculateDebtPayoff` (financialCalculations.ts, lines 101-119)

JavaScript numbers including `Infinity` are modelled by `EReal`; the
non-amortizing branch returns the `Infinity` sentinel in all three
fields. -/

structure DebtPayoffResult where
  monthsToPayoff : EReal
  totalInterest : EReal
  totalPaid : EReal

/-- The `Infinity` sentinel result (line 107). -/
def debtNeverPayoff : DebtPayoffResult :=
  { monthsToPayoff := ⊤, totalInterest := ⊤, totalPaid := ⊤ }

/-- `calculateDebtPayoff` (lines 101-119). -/
noncomputable def calculateDebtPayoff (balance interestRate monthlyPayment : ℝ) :
    DebtPayoffResult :=
  if monthlyPayment ≤ balance * interestRate / 12 then debtNeverPayoff
  else
    let monthlyRate := interestRate / 12
    let monthsToPayoff : ℤ :=
      ⌈-Real.log (1 - balance * monthlyRate / monthlyPayment) / Real.log (1 + monthlyRate)⌉
    let totalPaid : ℝ := (monthsToPayoff : ℝ) * monthlyPayment
    { monthsToPayoff := ((monthsToPayoff : ℝ) : EReal)
      totalInterest := ((totalPaid - balance : ℝ) : EReal)
      totalPaid := ((totalPaid : ℝ) : EReal) }

structure RetirementPlanR where
  yearsToRetirement : ℝ
  monthlyContribution : ℝ
  projectedRetirementFund : ℝ
  monthlyIncomeAtRetirement : ℝ

/-- `calculateRetirementPlan` (lines 52-80) over the reals, with
`Math.pow` as `Real.rpow`, for the analytic claims about the projection
(the signature of the source, ages as numbers). -/
noncomputable def calculateRetirementPlanR
    (currentAge retirementAge currentSavings monthlyIncome contributionRate : ℝ) :
    RetirementPlanR :=
  let yearsToRetirement := retirementAge - currentAge
  let monthlyContribution := monthlyIncome * contributionRate
  let annualReturn : ℝ := 0.07
  let monthlyReturn := annualReturn / 12
  let futureValueCurrent := currentSavings * (1 + annualReturn) ^ yearsToRetirement
  let futureValueContributions := monthlyContribution *
    (((1 + monthlyReturn) ^ (yearsToRetirement * 12) - 1) / monthlyReturn)
  let projectedRetirementFund := futureValueCurrent + futureValueContributions
  { yearsToRetirement := yearsToRetirement
    monthlyContribution := monthlyContribution
    projectedRetirementFund := projectedRetirementFund
    monthlyIncomeAtRetirement := projectedRetirementFund * 0.04 / 12 }

/-- `formatCurrency` on the reals (used by the debt branch, whose amounts
come from `calculateDebtPayoff`). -/
noncomputable def formatCurrencyR (x : ℝ) : String :=
  if x < 0 then "-$" ++ withCommas (⌊-x + 1/2⌋.toNat)
  else "$" ++ withCommas (⌊x + 1/2⌋.toNat)

/-- `formatCurrency` applied to a possibly infinite amount (`Intl` renders
`Infinity` as `$∞`). -/
noncomputable def formatCurrencyE (e : EReal) : String :=
  if e = ⊤ then "$∞" else if e = ⊥ then "-$∞" else formatCurrencyR e.toReal

/-- `Math.round(months / 12)` interpolated into the debt template
(`Math.round(Infinity/12)` is `Infinity`, printed `Infinity`). -/
noncomputable def jsRoundYears (e : EReal) : String :=
  if e = ⊤ then "Infinity" else if e = ⊥ then "-Infinity"
  else toString ⌊e.toReal / 12 + 1/2⌋

/-! ## Conversation data (FinancialChatbot.tsx, lines 27-31 and
financialCalculations.ts, lines 1-10)

Numeric facts reaching `userData` are always `parseInt` results, hence
`Option ℕ`; `riskTolerance` and `goals` are declared but never written. -/

inductive RiskTolerance
  | low
  | medium
  | high
deriving DecidableEq

structure UserFinancialData where
  income : Option ℕ
  expenses : Option ℕ
  age : Option ℕ
  retirementAge : Option ℕ
  currentSavings : Option ℕ
  debt : Option ℕ
  riskTolerance : Option RiskTolerance
  goals : Option (List String)
deriving DecidableEq

inductive ConversationState
  | greeting
  | gathering_info
  | providing_advice
deriving DecidableEq

structure ChatContext where
  userData : UserFinancialData
  conversationState : ConversationState
  lastTopic : String
deriving DecidableEq

/-- The all-`undefined` `userData = {}`. -/
def emptyUserData : UserFinancialData :=
  { income := none, expenses := none, age := none, retirementAge := none,
    currentSavings := none, debt := none, riskTolerance := none, goals := none }

/-- The session's initial context (FinancialChatbot.tsx, lines 54-58). -/
def initialContext : ChatContext :=
  { userData := emptyUserData
    conversationState := ConversationState.greeting
    lastTopic := "" }

/-- JavaScript truthiness of an optional number (`undefined` and `0` are
falsy). -/
def jsNumTruthy : Option ℕ → Bool
  | some n => n != 0
  | none => false

/-- JavaScript `x || d` on an optional number. -/
def jsOrNat (o : Option ℕ) (d : ℕ) : ℕ :=
  match o with
  | some n => if n != 0 then n else d
  | none => d

/-! ## The intent router (FinancialChatbot.tsx, lines 94-365)

The outcome of one call is split into which branch answered, with the
values that branch feeds its calculator (`Response`), and the queued
context updates; `render` below produces the branch's exact response
string. -/

/-- Which branch of `getBeginnerFriendlyResponse` produced the answer,
with the stale-context values it uses. -/
inductive Response
  | greetingMenu
  | budgetPlan (income : ℕ)
  | budgetAsk
  | retirementAdvice (age currentSavings income : ℕ)
  | retirementAsk
  | emergencyPlanFor (monthlyExpenses : ℚ) (currentSavings income : ℕ)
  | emergencyAsk
  | debtPlan (amount : ℕ)
  | debtAsk
  | investmentAdvice (age : ℕ)
  | babySteps
  | fallback
deriving DecidableEq

/-- The income-keyword test of line 99. -/
def incomeKeyword (message : String) : Bool :=
  strIncludes message "income" || strIncludes message "salary" ||
  strIncludes message "make" || strIncludes message "earn"

/-- Line 99's guard: a truthy extracted number together with an income
keyword in the lower-cased message. -/
def incomeRecognized (userMessage : String) : Bool :=
  match extractNumberFromText userMessage with
  | ExtractResult.num n => n != 0 && incomeKeyword (lowerStr userMessage)
  | _ => false

/-- The queued update of lines 99-105: store the extracted number as
income and move to `gathering_info`. -/
def applyIncome (ctx : ChatContext) (userMessage : String) : ChatContext :=
  match extractNumberFromText userMessage with
  | ExtractResult.num n =>
    if n != 0 && incomeKeyword (lowerStr userMessage) then
      { ctx with
        userData := { ctx.userData with income := some n }
        conversationState := ConversationState.gathering_info }
    else ctx
  | _ => ctx

/-- The queued update of lines 107-115: store the matched age. -/
def applyAge (ctx : ChatContext) (userMessage : String) : ChatContext :=
  match ageFromText userMessage with
  | some a => { ctx with userData := { ctx.userData with age := some a } }
  | none => ctx

/-- The keyword cascade of lines 117-364.  `stale` is the render-time
`chatContext` closure the branch conditions read; `updated` is the queued
context (fact updates already applied) that further `lastTopic` updates
compose onto.  `message` is the lower-cased text, `userMessage` the
original (the debt branch re-runs `extractNumberFromText` on it). -/
def dispatch (stale updated : ChatContext) (message userMessage : String) :
    Response × ChatContext :=
  if strIncludes message "hello" || strIncludes message "hi" || strIncludes message "help" then
    (Response.greetingMenu, updated)
  else if strIncludes message "budget" || strIncludes message "spending" ||
      strIncludes message "money" then
    if jsNumTruthy stale.userData.income then
      (Response.budgetPlan (stale.userData.income.getD 0), updated)
    else
      (Response.budgetAsk, { updated with lastTopic := "budget" })
  else if strIncludes message "retire" || strIncludes message "pension" ||
      strIncludes message "401k" then
    if jsNumTruthy stale.userData.income && jsNumTruthy stale.userData.age then
      (Response.retirementAdvice (stale.userData.age.getD 0)
        (jsOrNat stale.userData.currentSavings 0) (stale.userData.income.getD 0), updated)
    else
      (Response.retirementAsk, { updated with lastTopic := "retirement" })
  else if strIncludes message "emergency" ||
      (strIncludes message "savings" && !(strIncludes message "retirement")) then
    if jsNumTruthy stale.userData.income then
      let income := stale.userData.income.getD 0
      let monthlyExpenses : ℚ :=
        match stale.userData.expenses with
        | some e => if e != 0 then (e : ℚ) else (income : ℚ) * 0.8
        | none => (income : ℚ) * 0.8
      (Response.emergencyPlanFor monthlyExpenses
        (jsOrNat stale.userData.currentSavings 0) income, updated)
    else
      (Response.emergencyAsk, updated)
  else if strIncludes message "debt" || strIncludes message "loan" ||
      strIncludes message "credit" then
    match extractNumberFromText userMessage with
    | ExtractResult.num n =>
      if n != 0 then (Response.debtPlan n, updated) else (Response.debtAsk, updated)
    | _ => (Response.debtAsk, updated)
  else if strIncludes message "invest" || strIncludes message "stock" ||
      strIncludes message "portfolio" then
    (Response.investmentAdvice (jsOrNat stale.userData.age 30), updated)
  else if strIncludes message "start" || strIncludes message "begin" ||
      strIncludes message "new" || strIncludes message "first" then
    (Response.babySteps, updated)
  else
    (Response.fallback, updated)

/-- One call of `getBeginnerFriendlyResponse`: queue the fact updates,
then dispatch on the stale context. -/
def getBeginnerFriendlyResponse (ctx : ChatContext) (userMessage : String) :
    Response × ChatContext :=
  dispatch ctx (applyAge (applyIncome ctx userMessage) userMessage)
    (lowerStr userMessage) userMessage

/-- The context after one processed message. -/
def stepCtx (ctx : ChatContext) (msg : String) : ChatContext :=
  (getBeginnerFriendlyResponse ctx msg).2

/-- The greeting/help response (FinancialChatbot.tsx, lines 119-128). -/
def greetingText : String :=
  "Hi there! 👋 I\x27m here to help you take control of your money - don\x27t worry, we\x27ll keep it simple!\n\nHere\x27s what I can help you with:\n💰 **Create a simple budget** (how to split your money)\n🏦 **Plan for retirement** (saving for when you\x27re older)\n🚨 **Emergency savings** (money for unexpected things)\n📊 **Pay off debt** (get rid of what you owe)\n📈 **Start investing** (grow your money)\n\nWhat would you like to start with? Just pick one topic or tell me about your situation!"

/-- The response text of each branch, with the source's template strings
and interpolations (FinancialChatbot.tsx, lines 117-364). -/
noncomputable def render : Response → String
  | Response.greetingMenu => greetingText
  | Response.budgetPlan income =>
    let budget := calculateBudget (income : ℚ)
    "Great! Let me create a simple budget for you. 📊\n\n**Your " ++
      formatCurrency (income : ℚ) ++
      " monthly income should be split like this:**\n\n🏠 **Needs (" ++
      formatCurrency budget.needs ++
      ")** - The must-haves:\n• Rent/mortgage\n• Groceries & utilities  \n• Transportation\n• Minimum debt payments\n\n🎉 **Wants (" ++
      formatCurrency budget.wants ++
      ")** - The fun stuff:\n• Dining out & entertainment\n• Hobbies & subscriptions\n• Shopping for non-essentials\n\n💰 **Savings (" ++
      formatCurrency budget.savings ++
      ")** - Your future self:\n• Emergency fund (start here!)\n• Retirement savings\n• Goals like vacation or house\n\n**Getting Started:**\n1. Track your spending for a week\n2. Start with just the emergency fund\n3. Use apps like Mint or YNAB to help\n\nWould you like help with any specific part of this budget?"
  | Response.budgetAsk =>
    "I\x27d love to help you create a simple budget! 💰\n\nFirst, I need to know your monthly income. This includes:\n• Your job salary (after taxes)\n• Any side income\n• Other regular money coming in\n\nJust tell me something like: \"I make $3,000 per month\" or \"My income is $50,000 per year\"\n\nDon\x27t worry - I won\x27t store this info anywhere, it\x27s just for our conversation! 🔒"
  | Response.retirementAdvice age currentSavings income =>
    let retirementPlan := calculateRetirementPlan (age : ℤ) 65 (currentSavings : ℚ) (income : ℚ) 0.15
    "Let me show you a simple retirement plan! 🎯\n\n**Here\x27s the good news:**\n• You have " ++
      toString retirementPlan.yearsToRetirement ++
      " years to save\n• If you save " ++
      formatCurrency retirementPlan.monthlyContribution ++
      " per month\n• You could have " ++
      formatCurrency retirementPlan.projectedRetirementFund ++
      " when you retire!\n• That\x27s about " ++
      formatCurrency retirementPlan.monthlyIncomeAtRetirement ++
      " per month to live on\n\n**Start Simple:**\n1. **Get your employer match** - Free money if your job offers 401k matching\n2. **Open a Roth IRA** - Tax-free growth (max $6,500/year)\n3. **Invest in index funds** - Like buying a piece of the whole stock market\n\n**Don\x27t worry about being perfect** - even $50/month is a great start! The important thing is to begin.\n\nWant me to explain any of these steps in more detail?"
  | Response.retirementAsk =>
    "Planning for retirement is smart! 🌟 Let me make this super simple.\n\nI need two quick things:\n1. **Your age** (like \"I\x27m 25\")\n2. **Your monthly income** (like \"I make $4,000 per month\")\n\nThen I can show you exactly how much to save and where to put it!\n\nThe earlier you start, the easier it gets because of \"compound interest\" (basically your money makes money). 📈"
  | Response.emergencyPlanFor monthlyExpenses currentSavings income =>
    let emergencyPlan := calculateEmergencyFund monthlyExpenses (currentSavings : ℚ) (income : ℚ) 6
    "Perfect! Let\x27s build your \"sleep better at night\" fund! 😴\n\n**Why you need this:**\nEmergency funds are for when life happens - job loss, car repair, medical bills, etc.\n\n**Your Emergency Fund Plan:**\n🎯 **Goal:** " ++
      formatCurrency emergencyPlan.targetAmount ++
      " (covers 6 months of expenses)\n💰 **Save each month:** " ++
      formatCurrency emergencyPlan.monthlySavingsNeeded ++
      "\n⏰ **Time to reach goal:** " ++
      toString emergencyPlan.monthsToGoal ++
      " months\n\n**Super Simple Steps:**\n1. **Start with $500** - Covers most small emergencies\n2. **Use a separate savings account** - Keep it away from spending money\n3. **Automate it** - Set up automatic transfer each payday\n4. **High-yield savings** - Online banks like Ally or Marcus pay more interest\n\n**Pro tip:** Start small! Even $25/week adds up to $1,300 in a year.\n\nReady to open a savings account, or have questions about where to keep this money?"
  | Response.emergencyAsk =>
    "Smart thinking! An emergency fund is like an umbrella ☂️ - you hope you never need it, but you\x27re glad it\x27s there!\n\nTo create your plan, tell me your monthly income (like \"I make $3,500 per month\").\n\nHere\x27s why it matters: If you make $3,000/month, you\x27d want about $15,000 saved for emergencies. Sounds like a lot? Don\x27t worry - we\x27ll start small and build up! 💪"
  | Response.debtPlan amount =>
    let interestRate : ℝ := 0.18
    let minimumPayment : ℝ := (amount : ℝ) * 0.02
    let aggressivePayment := minimumPayment * 2
    let minPayoff := calculateDebtPayoff (amount : ℝ) interestRate minimumPayment
    let aggressivePayoff := calculateDebtPayoff (amount : ℝ) interestRate aggressivePayment
    "Let\x27s crush that " ++
      formatCurrencyR (amount : ℝ) ++
      " debt! 💪\n\n**Two paths to freedom:**\n\n🐌 **Minimum payments (" ++
      formatCurrencyR minimumPayment ++
      "/month):**\n• Takes " ++
      jsRoundYears minPayoff.monthsToPayoff ++
      " years\n• You\x27ll pay " ++
      formatCurrencyE minPayoff.totalInterest ++
      " in interest\n\n🚀 **Double payments (" ++
      formatCurrencyR aggressivePayment ++
      "/month):**\n• Takes " ++
      jsRoundYears aggressivePayoff.monthsToPayoff ++
      " years  \n• You\x27ll pay " ++
      formatCurrencyE aggressivePayoff.totalInterest ++
      " in interest\n• **You save " ++
      formatCurrencyE (minPayoff.totalInterest - aggressivePayoff.totalInterest) ++
      "!**\n\n**Simple debt strategy:**\n1. **Pay minimums on everything**\n2. **Put extra money on highest interest rate debt**\n3. **Once that\x27s paid off, move to the next highest**\n\n**Quick wins:**\n• Call your credit card company and ask for a lower rate\n• Consider a balance transfer to 0% interest card\n• Use any tax refund or bonus toward debt\n\nCan you share what interest rate you\x27re paying? That helps me give better advice!"
  | Response.debtAsk =>
    "Tackling debt is one of the best things you can do for your future! 🎯\n\nTo help you create a payoff plan, I need:\n• **How much you owe** (like \"$5,000 in credit cards\")\n• **What interest rate** (look at your statement - usually 15-25%)\n\nDon\x27t have the exact numbers? No problem! Just tell me roughly:\n\"I have about $3,000 in credit card debt\"\n\nThen I\x27ll show you exactly how to pay it off and how much money you\x27ll save! 💰"
  | Response.investmentAdvice age =>
    let stockAllocation : ℤ := min 90 (100 - (age : ℤ))
    let bondAllocation : ℤ := 100 - stockAllocation
    "Investing sounds scary, but it\x27s actually pretty simple! 📈\n\n**Think of it like this:** Instead of your money sitting in a low-interest savings account, you\x27re letting it grow by owning tiny pieces of successful companies.\n\n**Your simple starter portfolio:**\n• **" ++
      toString stockAllocation ++
      "% Stocks** - Companies that grow over time\n• **" ++
      toString bondAllocation ++
      "% Bonds** - Safer, steady income\n\n**Beginner\x27s Investment Plan:**\n1. **Start with $50-100/month** - Don\x27t invest money you need soon!\n2. **Use index funds** - Like buying the whole stock market at once\n3. **Pick 2-3 funds maximum** - Don\x27t overthink it\n\n**Recommended funds for beginners:**\n• **VTI** - Owns every US company (stock fund)\n• **VXUS** - Owns international companies  \n• **BND** - Safe bonds for stability\n\n**Where to start:**\n• Fidelity, Vanguard, or Schwab (low fees)\n• Start with a Roth IRA (tax-free growth!)\n• Set up automatic investing\n\n**Important:** Only invest money you won\x27t need for 5+ years. Emergency fund comes first!\n\nWant me to walk you through opening your first investment account?"
  | Response.babySteps =>
    "Welcome to your money journey! 🌟 Let\x27s start with the basics.\n\n**The \"Baby Steps\" approach:**\n1. **$500 mini emergency fund** (for small surprises)\n2. **Pay off high-interest debt** (credit cards first)\n3. **Build full emergency fund** (3-6 months expenses)\n4. **Start investing** (retirement accounts)\n5. **Save for goals** (house, vacation, etc.)\n\n**Where are you right now?**\n• \"I have no savings\" ➜ Let\x27s start with step 1!\n• \"I have some debt\" ➜ Let\x27s make a payoff plan!\n• \"I want to invest\" ➜ Let\x27s check if you\x27re ready!\n\nJust tell me where you are and what feels most important to you right now. We\x27ll take it one step at a time! 🚶‍♀️"
  | Response.fallback =>
    "I\x27d love to help you with that! 😊 \n\nFor the best advice, it helps if you share:\n• Your situation (like \"I\x27m new to budgeting\" or \"I want to start investing\")\n• Your monthly income (roughly is fine!)\n• Your age (helps with planning)\n\nOr just pick a topic:\n💰 \"Help me budget\" \n🏦 \"Plan for retirement\"\n🚨 \"Build emergency savings\"\n📊 \"Pay off debt\"\n📈 \"Start investing\"\n\nRemember - everyone starts somewhere, and there are no dumb questions! 🌟"

/-! ## Helper lemmas -/

/-- `formatCurrency` of a whole number of dollars. -/
lemma formatCurrency_ofNat (n : ℕ) : formatCurrency (n : ℚ) = "$" ++ withCommas n := by
  unfold formatCurrency
  rw [if_neg (not_lt.mpr (by positivity))]
  have h : (⌊(n : ℚ) + 1/2⌋ : ℤ) = (n : ℤ) := by
    rw [Int.floor_eq_iff]
    push_cast
    constructor <;> norm_num
  rw [h]
  simp

/-- `/\$?[\d,]+/` has no match exactly when no character of the text is a
digit or a comma. -/
lemma findTokenMatch_none_iff (cs : List Char) :
    findTokenMatch cs = none ↔ cs.all (fun c => !(isTok c)) = true := by
  induction cs with
  | nil => simp [findTokenMatch]
  | cons c rest ih =>
    rw [List.all_cons]
    cases ht : isTok c with
    | true => simp [findTokenMatch, ht]
    | false =>
      cases hd : (c == '$' && tokStart rest) with
      | true =>
        have hts : tokStart rest = true := by
          have hd2 := hd
          simp only [Bool.and_eq_true] at hd2
          exact hd2.2
        cases rest with
        | nil => simp [tokStart] at hts
        | cons r t =>
          have hr : isTok r = true := hts
          simp [findTokenMatch, ht, hd, List.all_cons, hr]
      | false => simp [findTokenMatch, ht, hd, ih]

/-! ## Claim C1 -/

/-- Claim C1: for every income `x ≥ 0`, `calculateBudget x` returns
`needs = 0.5·x`, `wants = 0.3·x`, `savings = 0.2·x`, the three amounts sum
back to `x`, and the percentage fields are exactly 50, 30 and 20. -/
theorem calculateBudget_spec (x : ℚ) (hx : 0 ≤ x) :
    (calculateBudget x).needs = 0.5 * x ∧
    (calculateBudget x).wants = 0.3 * x ∧
    (calculateBudget x).savings = 0.2 * x ∧
    (calculateBudget x).needs + (calculateBudget x).wants + (calculateBudget x).savings = x ∧
    (calculateBudget x).needsPercentage = 50 ∧
    (calculateBudget x).wantsPercentage = 30 ∧
    (calculateBudget x).savingsPercentage = 20 := by
  refine ⟨by simp [calculateBudget]; ring, by simp [calculateBudget]; ring,
    by simp [calculateBudget]; ring, by simp [calculateBudget]; ring, rfl, rfl, rfl⟩

/-- Claim C1, witnessed at the income 100. -/
theorem calculateBudget_spec_witness :
    (calculateBudget 100).needs = 0.5 * 100 ∧
    (calculateBudget 100).wants = 0.3 * 100 ∧
    (calculateBudget 100).savings = 0.2 * 100 ∧
    (calculateBudget 100).needs + (calculateBudget 100).wants + (calculateBudget 100).savings = 100 ∧
    (calculateBudget 100).needsPercentage = 50 ∧
    (calculateBudget 100).wantsPercentage = 30 ∧
    (calculateBudget 100).savingsPercentage = 20 :=
  calculateBudget_spec 100 (by norm_num)

/-! ## Claim C6 -/

/-- Claim C6 counterexample: on `"hello, world"` the bare comma matches
`/\$?[\d,]+/`, strips to the empty string, and `parseInt` yields `NaN`
— not the `null` the claim requires for a text with no
digits-with-separators token. -/
theorem extractNumberFromText_cex :
    extractNumberFromText "hello, world" = ExtractResult.nan ∧
    (decide (ExtractResult.nan = ExtractResult.null)) = false := by
  refine ⟨by decide, by decide⟩

/-- Claim C6 as amended: `extractNumberFromText` parses the first
`/\$?[\d,]+/` match with `$` and commas stripped; it returns `null`
exactly when the text contains no digit and no comma at all; a match with
commas but no digits yields `NaN` (not `null`); the claim's three examples
hold. -/
theorem extractNumberFromText_spec :
    (∀ s : String, extractNumberFromText s = ExtractResult.null ↔
      s.data.all (fun c => !(isTok c)) = true) ∧
    extractNumberFromText "I make $5,000 per month" = ExtractResult.num 5000 ∧
    extractNumberFromText "3000" = ExtractResult.num 3000 ∧
    extractNumberFromText "no numbers here" = ExtractResult.null ∧
    extractNumberFromText "hello, world" = ExtractResult.nan := by
  refine ⟨?_, by decide, by decide, by decide, by decide⟩
  intro s
  rw [← findTokenMatch_none_iff s.data]
  unfold extractNumberFromText
  cases h : findTokenMatch s.data with
  | none => simp
  | some tok =>
    simp only []
    constructor
    · intro hnull
      by_cases hd : (tok.filter Char.isDigit).isEmpty
      · simp [hd] at hnull
      · simp [hd] at hnull
    · intro hnone
      exact absurd hnone (by simp)

/-! ## Router structure lemmas -/

/-- The income update touches only `income` and `conversationState`. -/
lemma applyIncome_frame (ctx : ChatContext) (m : String) :
    (applyIncome ctx m).userData.expenses = ctx.userData.expenses ∧
    (applyIncome ctx m).userData.retirementAge = ctx.userData.retirementAge ∧
    (applyIncome ctx m).userData.currentSavings = ctx.userData.currentSavings ∧
    (applyIncome ctx m).userData.debt = ctx.userData.debt ∧
    (applyIncome ctx m).userData.riskTolerance = ctx.userData.riskTolerance ∧
    (applyIncome ctx m).userData.goals = ctx.userData.goals ∧
    (applyIncome ctx m).userData.age = ctx.userData.age ∧
    (applyIncome ctx m).lastTopic = ctx.lastTopic := by
  unfold applyIncome
  cases h : extractNumberFromText m with
  | null => simp
  | nan => simp
  | num n =>
    by_cases hcond : (n != 0 && incomeKeyword (lowerStr m)) = true
    · simp [hcond]
    · simp [hcond]

/-- The income update sets `gathering_info` exactly when line 99's guard
holds, and otherwise leaves the state alone. -/
lemma applyIncome_state (ctx : ChatContext) (m : String) :
    (applyIncome ctx m).conversationState =
      if incomeRecognized m = true then ConversationState.gathering_info
      else ctx.conversationState := by
  unfold applyIncome incomeRecognized
  cases h : extractNumberFromText m with
  | null => simp
  | nan => simp
  | num n =>
    by_cases hcond : (n != 0 && incomeKeyword (lowerStr m)) = true
    · simp [hcond]
    · simp [hcond]

/-- The age update touches only `age`. -/
lemma applyAge_frame (ctx : ChatContext) (m : String) :
    (applyAge ctx m).userData.expenses = ctx.userData.expenses ∧
    (applyAge ctx m).userData.retirementAge = ctx.userData.retirementAge ∧
    (applyAge ctx m).userData.currentSavings = ctx.userData.currentSavings ∧
    (applyAge ctx m).userData.debt = ctx.userData.debt ∧
    (applyAge ctx m).userData.riskTolerance = ctx.userData.riskTolerance ∧
    (applyAge ctx m).userData.goals = ctx.userData.goals ∧
    (applyAge ctx m).userData.income = ctx.userData.income ∧
    (applyAge ctx m).conversationState = ctx.conversationState ∧
    (applyAge ctx m).lastTopic = ctx.lastTopic := by
  unfold applyAge
  cases h : ageFromText m <;> simp

/-- The dispatch cascade returns the queued context unchanged except,
in two ask-branches, for `lastTopic`. -/
lemma dispatch_preserves (s u : ChatContext) (m o : String) :
    (dispatch s u m o).2.userData = u.userData ∧
    (dispatch s u m o).2.conversationState = u.conversationState := by
  unfold dispatch
  repeat' split
  all_goals simp

/-! ## Claim C9 -/

/-- Claim C9: starting from the initial context and processing any
sequence of messages, `conversationState` stays in
`{greeting, gathering_info}` (it never becomes `providing_advice`), and
the only transition one router call performs is to `gathering_info`,
exactly when the message carries a recognized income fact. -/
theorem conversationState_invariant :
    (∀ msgs : List String,
      (msgs.foldl stepCtx initialContext).conversationState = ConversationState.greeting ∨
      (msgs.foldl stepCtx initialContext).conversationState = ConversationState.gathering_info) ∧
    (∀ (ctx : ChatContext) (msg : String),
      (getBeginnerFriendlyResponse ctx msg).2.conversationState =
        if incomeRecognized msg = true then ConversationState.gathering_info
        else ctx.conversationState) := by
  have hstep : ∀ (ctx : ChatContext) (msg : String),
      (getBeginnerFriendlyResponse ctx msg).2.conversationState =
        if incomeRecognized msg = true then ConversationState.gathering_info
        else ctx.conversationState := by
    intro ctx msg
    unfold getBeginnerFriendlyResponse
    rw [(dispatch_preserves ctx (applyAge (applyIncome ctx msg) msg) (lowerStr msg) msg).2,
      (applyAge_frame (applyIncome ctx msg) msg).2.2.2.2.2.2.2.1,
      applyIncome_state]
  refine ⟨?_, hstep⟩
  have aux : ∀ (msgs : List String) (c : ChatContext),
      (c.conversationState = ConversationState.greeting ∨
       c.conversationState = ConversationState.gathering_info) →
      ((msgs.foldl stepCtx c).conversationState = ConversationState.greeting ∨
       (msgs.foldl stepCtx c).conversationState = ConversationState.gathering_info) := by
    intro msgs
    induction msgs with
    | nil => intro c h; simpa using h
    | cons mhd tl ih =>
      intro c h
      rw [List.foldl_cons]
      apply ih
      unfold stepCtx
      rw [hstep c mhd]
      by_cases hrec : incomeRecognized mhd = true
      · rw [if_pos hrec]; right; rfl
      · rw [if_neg hrec]; exact h
  exact fun msgs => aux msgs initialContext (Or.inl rfl)

/-! ## Claim C10 -/

/-- Claim C10 (frame property): one router call can modify at most
`income`, `age`, `conversationState` and `lastTopic`; the remaining
`userData` fields — `expenses`, `retirementAge`, `currentSavings`,
`debt`, `riskTolerance`, `goals` — are unchanged for every context and
message. -/
theorem router_frame (ctx : ChatContext) (msg : String) :
    (getBeginnerFriendlyResponse ctx msg).2.userData.expenses = ctx.userData.expenses ∧
    (getBeginnerFriendlyResponse ctx msg).2.userData.retirementAge = ctx.userData.retirementAge ∧
    (getBeginnerFriendlyResponse ctx msg).2.userData.currentSavings = ctx.userData.currentSavings ∧
    (getBeginnerFriendlyResponse ctx msg).2.userData.debt = ctx.userData.debt ∧
    (getBeginnerFriendlyResponse ctx msg).2.userData.riskTolerance = ctx.userData.riskTolerance ∧
    (getBeginnerFriendlyResponse ctx msg).2.userData.goals = ctx.userData.goals := by
  unfold getBeginnerFriendlyResponse
  have hd := dispatch_preserves ctx (applyAge (applyIncome ctx msg) msg) (lowerStr msg) msg
  rw [hd.1]
  obtain ⟨hae, har, hac, had, hak, hag, _, _, _⟩ := applyAge_frame (applyIncome ctx msg) msg
  obtain ⟨hie, hir, hic, hid, hik, hig, _, _⟩ := applyIncome_frame ctx msg
  exact ⟨hae.trans hie, har.trans hir, hac.trans hic, had.trans hid,
    hak.trans hik, hag.trans hig⟩

/-! ## Claim C4 -/

/-- Claim C4 counterexample: on the message
`"I'm 30 years old and make $6000 per month, help me plan for retirement"`
from the empty context, the stored income is 30 (the first number in the
text), not 6000, and the response is the greeting/help menu, not a
retirement projection. -/
theorem retirement_message_cex :
    (decide ((getBeginnerFriendlyResponse initialContext
      "I\x27m 30 years old and make $6000 per month, help me plan for retirement").2.userData.income
        = some 6000)) = false ∧
    (decide ((getBeginnerFriendlyResponse initialContext
      "I\x27m 30 years old and make $6000 per month, help me plan for retirement").1
        = Response.retirementAdvice 30 0 6000)) = false ∧
    (getBeginnerFriendlyResponse initialContext
      "I\x27m 30 years old and make $6000 per month, help me plan for retirement").1
        = Response.greetingMenu := by
  refine ⟨by decide, by decide, by decide⟩

/-- Claim C4 as amended: the message stores age = 30 and income = 30
(`extractNumberFromText` takes the first number in the text, which is the
age, not the 6000), and sets `gathering_info`; but because the message
contains "help", the greeting branch answers before the retirement branch
is consulted, so the response is the help menu (which contains no
retirement projection), not a computed retirement plan. -/
theorem retirement_message_routing :
    (getBeginnerFriendlyResponse initialContext
      "I\x27m 30 years old and make $6000 per month, help me plan for retirement").2.userData.age
        = some 30 ∧
    (getBeginnerFriendlyResponse initialContext
      "I\x27m 30 years old and make $6000 per month, help me plan for retirement").2.userData.income
        = some 30 ∧
    (getBeginnerFriendlyResponse initialContext
      "I\x27m 30 years old and make $6000 per month, help me plan for retirement").2.conversationState
        = ConversationState.gathering_info ∧
    (getBeginnerFriendlyResponse initialContext
      "I\x27m 30 years old and make $6000 per month, help me plan for retirement").1
        = Response.greetingMenu ∧
    render Response.greetingMenu = greetingText ∧
    strIncludes greetingText "years to save" = false := by
  refine ⟨by decide, by decide, by decide, by decide, rfl, by decide⟩

/-! ## Claim C5 -/

/-- Claim C5 counterexample: in the three-turn scenario, turn one
(`"Help me create a budget"`) is answered by the greeting/help menu — a
text that never mentions "income" — because the message contains "help";
and turn three (`"help me budget"`) is likewise answered by the greeting
menu, which does not contain the claimed figure "2,500".  (Turn two does
store income = 5000.) -/
theorem budget_scenario_cex :
    (getBeginnerFriendlyResponse initialContext "Help me create a budget").1
      = Response.greetingMenu ∧
    render Response.greetingMenu = greetingText ∧
    strIncludes greetingText "income" = false ∧
    (stepCtx (stepCtx initialContext "Help me create a budget")
      "I make $5000 per month").userData.income = some 5000 ∧
    (getBeginnerFriendlyResponse (stepCtx (stepCtx initialContext "Help me create a budget")
      "I make $5000 per month") "help me budget").1 = Response.greetingMenu ∧
    strIncludes greetingText "2,500" = false := by
  refine ⟨by decide, rfl, by decide, by decide, by decide, by decide⟩

/-- `calculateBudget` at the income 5000, in whole dollars. -/
lemma calculateBudget_5000 :
    (calculateBudget ((5000 : ℕ) : ℚ)).needs = ((2500 : ℕ) : ℚ) ∧
    (calculateBudget ((5000 : ℕ) : ℚ)).wants = ((1500 : ℕ) : ℚ) ∧
    (calculateBudget ((5000 : ℕ) : ℚ)).savings = ((1000 : ℕ) : ℚ) := by
  refine ⟨?_, ?_, ?_⟩ <;> · simp [calculateBudget]; norm_num

/-- The rendered budget response at income 5000. -/
lemma render_budgetPlan_5000 :
    render (Response.budgetPlan 5000) =
      "Great! Let me create a simple budget for you. 📊\n\n**Your $5,000 monthly income should be split like this:**\n\n🏠 **Needs ($2,500)** - The must-haves:\n• Rent/mortgage\n• Groceries & utilities  \n• Transportation\n• Minimum debt payments\n\n🎉 **Wants ($1,500)** - The fun stuff:\n• Dining out & entertainment\n• Hobbies & subscriptions\n• Shopping for non-essentials\n\n💰 **Savings ($1,000)** - Your future self:\n• Emergency fund (start here!)\n• Retirement savings\n• Goals like vacation or house\n\n**Getting Started:**\n1. Track your spending for a week\n2. Start with just the emergency fund\n3. Use apps like Mint or YNAB to help\n\nWould you like help with any specific part of this budget?" := by
  obtain ⟨hn, hw, hs⟩ := calculateBudget_5000
  simp only [render]
  rw [hn, hw, hs, formatCurrency_ofNat, formatCurrency_ofNat, formatCurrency_ofNat,
    formatCurrency_ofNat]
  decide

/-- Claim C5 as amended: turn one routes to the greeting branch (the
message contains "help") and returns the help menu without invoking a
calculator; turn two stores income = 5000 and moves to `gathering_info`;
turn three ("help me budget") again returns the help menu; a
budget-keyword message without a greeting keyword (here "budget please")
then yields the computed budget response with needs $2,500, wants $1,500
and savings $1,000. -/
theorem budget_scenario_routing :
    (getBeginnerFriendlyResponse initialContext "Help me create a budget").1
      = Response.greetingMenu ∧
    (stepCtx (stepCtx initialContext "Help me create a budget")
      "I make $5000 per month").userData.income = some 5000 ∧
    (stepCtx (stepCtx initialContext "Help me create a budget")
      "I make $5000 per month").conversationState = ConversationState.gathering_info ∧
    (getBeginnerFriendlyResponse (stepCtx (stepCtx initialContext "Help me create a budget")
      "I make $5000 per month") "help me budget").1 = Response.greetingMenu ∧
    (getBeginnerFriendlyResponse (stepCtx (stepCtx initialContext "Help me create a budget")
      "I make $5000 per month") "budget please").1 = Response.budgetPlan 5000 ∧
    render (Response.budgetPlan 5000) =
      "Great! Let me create a simple budget for you. 📊\n\n**Your $5,000 monthly income should be split like this:**\n\n🏠 **Needs ($2,500)** - The must-haves:\n• Rent/mortgage\n• Groceries & utilities  \n• Transportation\n• Minimum debt payments\n\n🎉 **Wants ($1,500)** - The fun stuff:\n• Dining out & entertainment\n• Hobbies & subscriptions\n• Shopping for non-essentials\n\n💰 **Savings ($1,000)** - Your future self:\n• Emergency fund (start here!)\n• Retirement savings\n• Goals like vacation or house\n\n**Getting Started:**\n1. Track your spending for a week\n2. Start with just the emergency fund\n3. Use apps like Mint or YNAB to help\n\nWould you like help with any specific part of this budget?" := by
  refine ⟨by decide, by decide, by decide, by decide, by decide, render_budgetPlan_5000⟩

/-! ## Claim C2 -/

/-- Claim C2: for nonnegative balance, rate and payment, the debt
calculator returns the all-`Infinity` sentinel exactly when the payment
does not exceed the monthly accruing interest `balance·rate/12`; in the
amortizing case every field is a finite real, hence distinguishable from
the `⊤` sentinel by the caller. -/
theorem calculateDebtPayoff_sentinel (b r p : ℝ) (hb : 0 ≤ b) (hr : 0 ≤ r) (hp : 0 ≤ p) :
    (calculateDebtPayoff b r p = debtNeverPayoff ↔ p ≤ b * r / 12) ∧
    (b * r / 12 < p → ∃ M I T : ℝ,
      calculateDebtPayoff b r p =
        { monthsToPayoff := (M : EReal), totalInterest := (I : EReal), totalPaid := (T : EReal) } ∧
      (M : EReal) ≠ (⊤ : EReal) ∧ (I : EReal) ≠ (⊤ : EReal) ∧ (T : EReal) ≠ (⊤ : EReal)) := by
  constructor
  · constructor
    · intro h
      by_contra hcon
      push_neg at hcon
      simp only [calculateDebtPayoff] at h
      rw [if_neg (not_le.mpr hcon)] at h
      have h2 := congrArg DebtPayoffResult.monthsToPayoff h
      simp only [debtNeverPayoff] at h2
      exact EReal.coe_ne_top _ h2
    · intro h
      simp only [calculateDebtPayoff]
      rw [if_pos h]
  · intro h
    refine ⟨((⌈-Real.log (1 - b * (r / 12) / p) / Real.log (1 + r / 12)⌉ : ℤ) : ℝ),
      (((⌈-Real.log (1 - b * (r / 12) / p) / Real.log (1 + r / 12)⌉ : ℤ) : ℝ) * p - b),
      (((⌈-Real.log (1 - b * (r / 12) / p) / Real.log (1 + r / 12)⌉ : ℤ) : ℝ) * p),
      ?_, EReal.coe_ne_top _, EReal.coe_ne_top _, EReal.coe_ne_top _⟩
    simp only [calculateDebtPayoff]
    rw [if_neg (not_le.mpr h)]

/-- Claim C2, witnessed at balance 100, rate 0.12 and payment 1, where the
payment equals the monthly interest and the sentinel is returned. -/
theorem calculateDebtPayoff_sentinel_witness :
    calculateDebtPayoff 100 0.12 1 = debtNeverPayoff :=
  (calculateDebtPayoff_sentinel 100 0.12 1 (by norm_num) (by norm_num) (by norm_num)).1.mpr
    (by norm_num)

/-! ## Claim C3 -/

/-- Claim C3: in the amortizing case (`payment > balance·rate/12`, with
positive balance and rate) the result is
`monthsToPayoff = ⌈−ln(1 − balance·(rate/12)/payment) / ln(1 + rate/12)⌉`,
`totalPaid = monthsToPayoff·payment` and
`totalInterest = totalPaid − balance`. -/
theorem calculateDebtPayoff_amortizing (b r p : ℝ) (hb : 0 < b) (hr : 0 < r)
    (hp : b * r / 12 < p) :
    calculateDebtPayoff b r p =
      { monthsToPayoff :=
          (((⌈-Real.log (1 - b * (r / 12) / p) / Real.log (1 + r / 12)⌉ : ℤ) : ℝ) : EReal)
        totalInterest :=
          ((((⌈-Real.log (1 - b * (r / 12) / p) / Real.log (1 + r / 12)⌉ : ℤ) : ℝ) * p - b : ℝ) : EReal)
        totalPaid :=
          ((((⌈-Real.log (1 - b * (r / 12) / p) / Real.log (1 + r / 12)⌉ : ℤ) : ℝ) * p : ℝ) : EReal) } := by
  simp only [calculateDebtPayoff]
  rw [if_neg (not_le.mpr hp)]

/-- Claim C3, witnessed at balance 1000, rate 0.12, payment 1010. -/
theorem calculateDebtPayoff_amortizing_witness :
    calculateDebtPayoff 1000 0.12 1010 =
      { monthsToPayoff :=
          (((⌈-Real.log (1 - 1000 * (0.12 / 12) / 1010) / Real.log (1 + 0.12 / 12)⌉ : ℤ) : ℝ) : EReal)
        totalInterest :=
          ((((⌈-Real.log (1 - 1000 * (0.12 / 12) / 1010) / Real.log (1 + 0.12 / 12)⌉ : ℤ) : ℝ) * 1010 - 1000 : ℝ) : EReal)
        totalPaid :=
          ((((⌈-Real.log (1 - 1000 * (0.12 / 12) / 1010) / Real.log (1 + 0.12 / 12)⌉ : ℤ) : ℝ) * 1010 : ℝ) : EReal) } :=
  calculateDebtPayoff_amortizing 1000 0.12 1010 (by norm_num) (by norm_num) (by norm_num)

/-! ## Claim C7 -/

/-- Debt payoff at balance 1000, rate 0.12, payment 1010: exactly one
month (`−ln(1 − 1000·0.01/1010)/ln(1.01) = 1`), 10 of interest. -/
lemma debt_eval_1010 :
    calculateDebtPayoff 1000 0.12 1010 =
      { monthsToPayoff := ((1 : ℝ) : EReal), totalInterest := ((10 : ℝ) : EReal),
        totalPaid := ((1010 : ℝ) : EReal) } := by
  have hlog : Real.log ((101 : ℝ)/100) ≠ 0 := ne_of_gt (Real.log_pos (by norm_num))
  simp only [calculateDebtPayoff]
  rw [if_neg (by norm_num)]
  rw [show (1 - 1000 * (0.12 / 12) / 1010 : ℝ) = ((101 : ℝ)/100)⁻¹ by norm_num,
    show (1 + 0.12 / 12 : ℝ) = (101 : ℝ)/100 by norm_num,
    Real.log_inv, neg_neg, div_self hlog, Int.ceil_one]
  norm_num

/-- Debt payoff at balance 1000, rate 0.12, payment 2000: also one month
(`0 < ln(200/199)/ln(101/100) ≤ 1`), but 1000 of interest. -/
lemma debt_eval_2000 :
    calculateDebtPayoff 1000 0.12 2000 =
      { monthsToPayoff := ((1 : ℝ) : EReal), totalInterest := ((1000 : ℝ) : EReal),
        totalPaid := ((2000 : ℝ) : EReal) } := by
  simp only [calculateDebtPayoff]
  rw [if_neg (by norm_num)]
  rw [show (1 - 1000 * (0.12 / 12) / 2000 : ℝ) = ((200 : ℝ)/199)⁻¹ by norm_num,
    show (1 + 0.12 / 12 : ℝ) = (101 : ℝ)/100 by norm_num,
    Real.log_inv, neg_neg]
  have hc : (⌈Real.log ((200 : ℝ)/199) / Real.log ((101 : ℝ)/100)⌉ : ℤ) = 1 := by
    rw [Int.ceil_eq_iff]
    constructor
    · push_cast
      have := div_pos (Real.log_pos (by norm_num : (1:ℝ) < 200/199))
        (Real.log_pos (by norm_num : (1:ℝ) < 101/100))
      linarith
    · push_cast
      rw [div_le_one (Real.log_pos (by norm_num))]
      exact Real.log_le_log (by norm_num) (by norm_num)
  rw [hc]
  norm_num

/-- Claim C7 counterexample: with balance 1000 and rate 0.12, raising the
payment from 1010 to 2000 leaves `monthsToPayoff` unchanged (both 1) and
*increases* `totalInterest` from 10 to 1000 — so increasing the payment
does not monotonically decrease both quantities. -/
theorem debt_interest_not_monotone_cex :
    (calculateDebtPayoff 1000 0.12 1010).totalInterest = ((10 : ℝ) : EReal) ∧
    (calculateDebtPayoff 1000 0.12 2000).totalInterest = ((1000 : ℝ) : EReal) ∧
    (calculateDebtPayoff 1000 0.12 1010).monthsToPayoff =
      (calculateDebtPayoff 1000 0.12 2000).monthsToPayoff ∧
    ((10 : ℝ) : EReal) < ((1000 : ℝ) : EReal) := by
  rw [debt_eval_1010, debt_eval_2000]
  exact ⟨rfl, rfl, rfl, by exact_mod_cast (by norm_num : (10:ℝ) < 1000)⟩

/-- Claim C7 as amended: in the amortizing regime a larger payment never
*increases* `monthsToPayoff` (weak monotone decrease); `totalInterest` is
not monotone in the payment (see the counterexample, where equal payoff
months make a larger payment pay strictly more interest). -/
theorem calculateDebtPayoff_months_antitone (b r p q : ℝ) (hb : 0 < b) (hr : 0 < r)
    (hp : b * r / 12 < p) (hpq : p ≤ q) :
    (calculateDebtPayoff b r q).monthsToPayoff ≤ (calculateDebtPayoff b r p).monthsToPayoff := by
  have hp0 : 0 < p := lt_of_le_of_lt (by positivity) hp
  have hq : b * r / 12 < q := lt_of_lt_of_le hp hpq
  have hbmp : b * (r / 12) < p := by
    have hbm : b * (r / 12) = b * r / 12 := by ring
    linarith
  have h1p : (0:ℝ) < 1 - b * (r / 12) / p := by
    have h2 : b * (r / 12) / p < 1 := (div_lt_one hp0).mpr hbmp
    linarith
  have hfrac : b * (r / 12) / q ≤ b * (r / 12) / p := by gcongr
  have h1pq : 1 - b * (r / 12) / p ≤ 1 - b * (r / 12) / q := by linarith
  have hlog : Real.log (1 - b * (r / 12) / p) ≤ Real.log (1 - b * (r / 12) / q) :=
    Real.log_le_log h1p h1pq
  have hL : 0 < Real.log (1 + r / 12) :=
    Real.log_pos (by linarith [div_pos hr (show (0:ℝ) < 12 by norm_num)])
  have hneg : -Real.log (1 - b * (r / 12) / q) ≤ -Real.log (1 - b * (r / 12) / p) := by
    linarith
  have hdiv := (div_le_div_iff_of_pos_right hL).mpr hneg
  simp only [calculateDebtPayoff]
  rw [if_neg (not_le.mpr hq), if_neg (not_le.mpr hp)]
  dsimp only
  exact_mod_cast Int.ceil_le_ceil hdiv

/-- Claim C7 (amended), witnessed at balance 1000, rate 0.12, payments
1010 ≤ 2000. -/
theorem calculateDebtPayoff_months_antitone_witness :
    (calculateDebtPayoff 1000 0.12 2000).monthsToPayoff ≤
      (calculateDebtPayoff 1000 0.12 1010).monthsToPayoff :=
  calculateDebtPayoff_months_antitone 1000 0.12 1010 2000 (by norm_num) (by norm_num)
    (by norm_num) (by norm_num)

/-! ## Claim C8 -/

/-- Claim C8: for a positive horizon `retirementAge − currentAge`,
nonnegative monthly income, current savings and contribution rate (a
rate's domain; the program fixes it at 0.15), the projected retirement
fund is monotone (nondecreasing) in the contribution rate, in the current
savings, and in the horizon (raising the retirement age for a fixed
current age), the other inputs held fixed. -/
theorem retirementFund_monotone (a ra ra2 s s2 inc c c2 : ℝ)
    (hy : 0 < ra - a) (hinc : 0 ≤ inc) (hs : 0 ≤ s) (hc : 0 ≤ c)
    (hcc : c ≤ c2) (hss : s ≤ s2) (hra : ra ≤ ra2) :
    (calculateRetirementPlanR a ra s inc c).projectedRetirementFund ≤
      (calculateRetirementPlanR a ra s inc c2).projectedRetirementFund ∧
    (calculateRetirementPlanR a ra s inc c).projectedRetirementFund ≤
      (calculateRetirementPlanR a ra s2 inc c).projectedRetirementFund ∧
    (calculateRetirementPlanR a ra s inc c).projectedRetirementFund ≤
      (calculateRetirementPlanR a ra2 s inc c).projectedRetirementFund := by
  simp only [calculateRetirementPlanR]
  have hy0 : (0:ℝ) ≤ ra - a := le_of_lt hy
  have hy2 : ra - a ≤ ra2 - a := by linarith
  have hm : (0:ℝ) < 0.07 / 12 := by norm_num
  have hb1 : (1:ℝ) ≤ 1 + 0.07 := by norm_num
  have hb2 : (1:ℝ) ≤ 1 + 0.07 / 12 := by norm_num
  have hannuity : ∀ y : ℝ, 0 ≤ y →
      (0:ℝ) ≤ ((1 + 0.07 / 12) ^ (y * 12) - 1) / (0.07 / 12) := by
    intro y hy'
    apply div_nonneg _ (le_of_lt hm)
    have h1 : (1:ℝ) = (1 + 0.07 / 12) ^ (0:ℝ) := (Real.rpow_zero _).symm
    have h2 : (1 + 0.07 / 12 : ℝ) ^ (0:ℝ) ≤ (1 + 0.07 / 12) ^ (y * 12) :=
      Real.rpow_le_rpow_of_exponent_le hb2 (by nlinarith)
    nlinarith [h1, h2]
  have hannuity_mono : ((1 + 0.07 / 12 : ℝ)) ^ ((ra - a) * 12) - 1 ≤
      ((1 + 0.07 / 12 : ℝ)) ^ ((ra2 - a) * 12) - 1 := by
    have := Real.rpow_le_rpow_of_exponent_le hb2
      (show (ra - a) * 12 ≤ (ra2 - a) * 12 by nlinarith)
    linarith
  refine ⟨?_, ?_, ?_⟩
  · apply add_le_add_left
    apply mul_le_mul_of_nonneg_right _ (hannuity (ra - a) hy0)
    exact mul_le_mul_of_nonneg_left hcc hinc
  · apply add_le_add_right
    exact mul_le_mul_of_nonneg_right hss (Real.rpow_nonneg (by norm_num) _)
  · apply add_le_add
    · exact mul_le_mul_of_nonneg_left (Real.rpow_le_rpow_of_exponent_le hb1 hy2) hs
    · apply mul_le_mul_of_nonneg_left _ (mul_nonneg hinc hc)
      exact (div_le_div_iff_of_pos_right hm).mpr hannuity_mono

/-- Claim C8, witnessed at `currentAge = 30`, `retirementAge = 65 ≤ 70`,
`currentSavings = 0 ≤ 500`, `monthlyIncome = 1000`,
`contributionRate = 0.15 ≤ 0.2`. -/
theorem retirementFund_monotone_witness :
    (calculateRetirementPlanR 30 65 0 1000 0.15).projectedRetirementFund ≤
      (calculateRetirementPlanR 30 65 0 1000 0.2).projectedRetirementFund ∧
    (calculateRetirementPlanR 30 65 0 1000 0.15).projectedRetirementFund ≤
      (calculateRetirementPlanR 30 65 500 1000 0.15).projectedRetirementFund ∧
    (calculateRetirementPlanR 30 65 0 1000 0.15).projectedRetirementFund ≤
      (calculateRetirementPlanR 30 70 0 1000 0.15).projectedRetirementFund :=
  retirementFund_monotone 30 65 70 0 500 1000 0.15 0.2 (by norm_num) (by norm_num)
    (by norm_num) (by norm_num) (by norm_num) (by norm_num) (by norm_num)

end WealthGuide

